import Mathlib

/-!
Verification of the eventCollection Angular application against its
natural-language specification.  The definitions below are shallow
embeddings of the TypeScript source: `UserTrackingService`
(src/app/services/user-tracking.service.ts), `SupabaseService`
(src/app/services/supabase.service.ts), `ApiService` (the local-API data
service variant bundled with the repository), and the analytics page
(src/app/pages/analytics/analytics.ts).  JavaScript-specific behaviour
(`||` defaults treating `''` and `0` as falsy, `Array.prototype.splice`,
`unshift`, `Math.round`, `toFixed`) is translated explicitly.
-/

/-- JavaScript `x || d` for an optional string: `undefined` and `''` are
falsy, any other string is kept. -/
def jsOrStr (x : Option String) (d : String) : String :=
  match x with
  | some s => if s = "" then d else s
  | none => d

/-- JavaScript `x || d` for an optional integer: `undefined` and `0` are
falsy, any other number is kept. -/
def jsOrInt (x : Option Int) (d : Int) : Int :=
  match x with
  | some n => if n = 0 then d else n
  | none => d

/-- A non-recursive JSON-like value, enough for the `metadata` records the
tracking service sends (`Record<string, any>` whose values are strings,
numbers, booleans or null in every call site of the source). -/
inductive MetaVal where
  | null : MetaVal
  | bool (b : Bool) : MetaVal
  | num (q : ℚ) : MetaVal
  | str (s : String) : MetaVal
deriving DecidableEq

/-- A `metadata` object: field names paired with values. -/
abbrev Metadata := List (String × MetaVal)

/-- The `dimensions` field of `FileMetadata` in user-tracking.service.ts. -/
structure Dims where
  width : Option Int := none
  height : Option Int := none
deriving DecidableEq

/-- The `FileMetadata` interface of user-tracking.service.ts. -/
structure FileMetadata where
  file_name : String
  file_type : String
  file_size : Int
  last_modified : Option Int := none
  mime_type : Option String := none
  dimensions : Option Dims := none
  duration : Option ℚ := none
  bitrate : Option Int := none
  codec : Option String := none
deriving DecidableEq

/-- The `UserEvent` interface of user-tracking.service.ts. -/
structure UserEvent where
  id : Option String := none
  user_id : String
  event_type : String
  event_category : String
  element_type : Option String := none
  element_id : Option String := none
  element_class : Option String := none
  element_text : Option String := none
  page_url : String
  page_title : Option String := none
  route_path : Option String := none
  x_coordinate : Option Int := none
  y_coordinate : Option Int := none
  viewport_width : Option Int := none
  viewport_height : Option Int := none
  scroll_position : Option Int := none
  timestamp : String
  session_id : String
  metadata : Option Metadata := none
  duration_ms : Option Int := none
  file_metadata : Option FileMetadata := none
deriving DecidableEq

/-- The argument of `trackEvent`: a `UserEvent` with every field optional,
mirroring the TypeScript type of `eventData`. -/
structure EventDraft where
  id : Option String := none
  user_id : Option String := none
  event_type : Option String := none
  event_category : Option String := none
  element_type : Option String := none
  element_id : Option String := none
  element_class : Option String := none
  element_text : Option String := none
  page_url : Option String := none
  page_title : Option String := none
  route_path : Option String := none
  x_coordinate : Option Int := none
  y_coordinate : Option Int := none
  viewport_width : Option Int := none
  viewport_height : Option Int := none
  scroll_position : Option Int := none
  timestamp : Option String := none
  session_id : Option String := none
  metadata : Option Metadata := none
  duration_ms : Option Int := none
  file_metadata : Option FileMetadata := none
deriving DecidableEq

/-- Browser and service context read by `trackEvent`: the resolved user id
(`ensureUserId`), `window.location.href`, `document.title`, `router.url`,
`new Date().toISOString()`, the service's `sessionId`, and the window
geometry values. -/
structure TrackCtx where
  userId : String
  pageUrl : String
  pageTitle : String
  routerUrl : String
  now : String
  sessionId : String
  viewportW : Int
  viewportH : Int
  scrollY : Int
deriving DecidableEq

/-- The mutable state of `UserTrackingService` relevant to batching: the
in-memory `eventQueue` and the backend `user_events` rows already saved by
`supabase.saveUserEvents` (which inserts the batch as-is). -/
structure TrackState where
  eventQueue : List UserEvent
  saved : List UserEvent
deriving DecidableEq

namespace UserTrackingService

/-- Constant `batchSize = 50` in user-tracking.service.ts. -/
def batchSize : Nat := 50

/-- The `fullEvent` object literal built inside `trackEvent`, with the
JavaScript `||` defaults translated by `jsOrStr` / `jsOrInt`. -/
def mkFullEvent (ctx : TrackCtx) (ev : EventDraft) : UserEvent :=
  { user_id := ctx.userId
    event_type := jsOrStr ev.event_type "unknown"
    event_category := jsOrStr ev.event_category "interaction"
    element_type := ev.element_type
    element_id := ev.element_id
    element_class := ev.element_class
    element_text := ev.element_text
    page_url := jsOrStr ev.page_url ctx.pageUrl
    page_title := some (jsOrStr ev.page_title ctx.pageTitle)
    route_path := some (jsOrStr ev.route_path ctx.routerUrl)
    x_coordinate := ev.x_coordinate
    y_coordinate := ev.y_coordinate
    viewport_width := some (jsOrInt ev.viewport_width ctx.viewportW)
    viewport_height := some (jsOrInt ev.viewport_height ctx.viewportH)
    scroll_position := some (jsOrInt ev.scroll_position ctx.scrollY)
    timestamp := ctx.now
    session_id := ctx.sessionId
    metadata := some (ev.metadata.getD [])
    duration_ms := ev.duration_ms
    file_metadata := ev.file_metadata }

/-- Method `flushEvents(force)` of user-tracking.service.ts.  `saveOk` is the
outcome of the awaited `supabase.saveUserEvents` call (`false` models the
promise rejecting).  Returns the new state and the batch handed to
`saveUserEvents` (`none` when the early return on an empty queue fires and
no network call is made).  Non-forced: `splice(0, batchSize)` removes the
first `batchSize` events; on failure `unshift(...eventsToFlush)` puts them
back at the front.  Forced: `[...this.eventQueue]` copies the queue and the
failure branch does not re-queue. -/
def flushEvents (force : Bool) (saveOk : Bool) (st : TrackState) :
    TrackState × Option (List UserEvent) :=
  if st.eventQueue = [] then (st, none)
  else if force then
    let eventsToFlush := st.eventQueue
    if saveOk then
      ({ st with saved := st.saved ++ eventsToFlush }, some eventsToFlush)
    else
      (st, some eventsToFlush)
  else
    let eventsToFlush := st.eventQueue.take batchSize
    let rest := st.eventQueue.drop batchSize
    if saveOk then
      ({ eventQueue := rest, saved := st.saved ++ eventsToFlush }, some eventsToFlush)
    else
      ({ eventQueue := eventsToFlush ++ rest, saved := st.saved }, some eventsToFlush)

/-- Method `trackEvent` of user-tracking.service.ts: build the full event, push it,
then flush (non-forced) when the queue has reached `batchSize`.  The boolean
result records whether the flush was triggered. -/
def trackEvent (ctx : TrackCtx) (ev : EventDraft) (saveOk : Bool)
    (st : TrackState) : TrackState × Bool :=
  let full := mkFullEvent ctx ev
  let st1 : TrackState := { st with eventQueue := st.eventQueue ++ [full] }
  if batchSize ≤ st1.eventQueue.length then
    ((flushEvents false saveOk st1).1, true)
  else
    (st1, false)

/-- The per-event rewrite `migrateAnonymousEvents` applies with `forEach`:
events carrying the old anonymous id get the new id, others are untouched. -/
def rewriteUser (oldId newId : String) (e : UserEvent) : UserEvent :=
  if e.user_id = oldId then { e with user_id := newId } else e

/-- The `eventData` passed to `trackEvent` at the end of
`migrateAnonymousEvents` (`n` is `this.eventQueue.length` at that point). -/
def migrationDraft (oldId newId : String) (n : Nat) : EventDraft :=
  { event_type := some "events_migrated"
    event_category := some "system"
    metadata := some [("from_user_id", MetaVal.str oldId),
                      ("to_user_id", MetaVal.str newId),
                      ("events_migrated", MetaVal.num n)] }

/-- Method `migrateAnonymousEvents(oldUserId, newUserId)`: rewrite the queued
events' user ids, then track one `events_migrated` system event. -/
def migrateAnonymousEvents (ctx : TrackCtx) (oldId newId : String)
    (saveOk : Bool) (st : TrackState) : TrackState × Bool :=
  let q1 := st.eventQueue.map (rewriteUser oldId newId)
  trackEvent ctx (migrationDraft oldId newId q1.length) saveOk
    { st with eventQueue := q1 }

end UserTrackingService

/-- The `Event` row of supabase.service.ts (with the computed fields attached by
`getEvents`); the fields the analytics page reads. -/
structure EventRow where
  id : String
  title : String
  subtitle : Option String := none
  category_id : String
  city_id : String
  neighborhood : Option String := none
  event_date : String
  event_time : String
  color : String
  created_at : Option String := none
  updated_at : Option String := none
  avg_rating : Option ℚ := none
  review_count : Option Nat := none
  visitor_count : Option Nat := none
  view_count : Option Nat := none
deriving DecidableEq

/-- The `Visit` row of supabase.service.ts. -/
structure Visit where
  id : String
  event_id : String
  user_id : String
  checked_in_at : String
deriving DecidableEq

/-- The `Rating` row of supabase.service.ts. -/
structure RatingRow where
  id : String
  event_id : String
  user_id : String
  score : ℚ
  review : Option String := none
  was_present : Bool
  created_at : String
  updated_at : String
  event : Option EventRow := none
deriving DecidableEq

/-- The row payload carried by the three upsert writers of
supabase.service.ts. -/
inductive RowPayload where
  | view : RowPayload
  | visit : RowPayload
  | rating (score : ℚ) (review : Option String) (was_present : Bool) : RowPayload
deriving DecidableEq

/-- The score field of a payload, when it has one. -/
def RowPayload.scoreVal : RowPayload → Option ℚ
  | RowPayload.rating s _ _ => some s
  | _ => none

/-- An upsert request as issued by the Supabase client calls in
supabase.service.ts: target table, the row's conflict-key columns, the rest
of the row, and the `onConflict` option string. -/
structure UpsertReq where
  table : String
  row_event_id : String
  row_user_id : String
  payload : RowPayload
  onConflict : String
deriving DecidableEq

/-- A stored row of one of the conflict-keyed tables. -/
structure DbRow where
  event_id : String
  user_id : String
  payload : RowPayload
deriving DecidableEq

/-- Number of rows of `tbl` whose `(event_id, user_id)` pair is `(e, u)`. -/
def countKey (tbl : List DbRow) (e u : String) : Nat :=
  (tbl.filter (fun r => decide (r.event_id = e ∧ r.user_id = u))).length

/-- Modelled from the spec: the remote database's upsert-on-conflict
behaviour for a unique key on `(event_id, user_id)` ("upsert-on-conflict for
ratings/visits/views [is] enforced by the remote database's constraints");
the repository only issues the request, the conflict resolution itself is
PostgreSQL's and is not in src/.  A row with a matching key is replaced,
otherwise the row is inserted. -/
def applyUpsert (tbl : List DbRow) (req : UpsertReq) : List DbRow :=
  let nr : DbRow := { event_id := req.row_event_id, user_id := req.row_user_id, payload := req.payload }
  if tbl.any (fun r => decide (r.event_id = req.row_event_id ∧ r.user_id = req.row_user_id)) then
    tbl.map (fun r => if r.event_id = req.row_event_id ∧ r.user_id = req.row_user_id then nr else r)
  else
    tbl ++ [nr]

namespace SupabaseService

/-- Method `trackEventView(eventId)`: returns without any request when no user is
signed in, otherwise upserts `{event_id, user_id}` into `event_views` with
`onConflict: 'event_id,user_id'`.  `currentUser` is `getCurrentUser()`. -/
def trackEventView (currentUser : Option String) (eventId : String) :
    Option UpsertReq :=
  match currentUser with
  | none => none
  | some u => some { table := "event_views", row_event_id := eventId,
                     row_user_id := u, payload := RowPayload.view,
                     onConflict := "event_id,user_id" }

/-- Method `checkIn(eventId)`: throws `'User must be authenticated'` without a
user, otherwise upserts `{event_id, user_id}` into `visits` with
`onConflict: 'event_id,user_id'`. -/
def checkIn (currentUser : Option String) (eventId : String) :
    Except String UpsertReq :=
  match currentUser with
  | none => Except.error "User must be authenticated"
  | some u => Except.ok { table := "visits", row_event_id := eventId,
                          row_user_id := u, payload := RowPayload.visit,
                          onConflict := "event_id,user_id" }

/-- Method `createRating(eventId, score, review?, wasPresent)`: throws without a
user, otherwise upserts `{event_id, user_id, score, review: review || null,
was_present}` into `ratings` with `onConflict: 'event_id,user_id'`.  The
score is sent exactly as passed. -/
def createRating (currentUser : Option String) (eventId : String)
    (score : ℚ) (review : Option String) (wasPresent : Bool) :
    Except String UpsertReq :=
  match currentUser with
  | none => Except.error "User must be authenticated"
  | some u =>
      Except.ok { table := "ratings", row_event_id := eventId,
                  row_user_id := u,
                  payload := RowPayload.rating score
                    (match review with
                     | some s => if s = "" then none else some s
                     | none => none) wasPresent,
                  onConflict := "event_id,user_id" }

/-- A user-scoped select issued by the read helpers: target table and the
`eq('user_id', user)` filter value. -/
structure UserQuery where
  table : String
  user_id : String
deriving DecidableEq

/-- Method `getUserVisits(userId?)`: resolve `userId || this.getCurrentUser()?.id`;
a falsy result short-circuits to `[]` with no request.  `net` is the remote
response: an error (thrown), or `data` which may be null (`data || []`).
The second component counts network calls. -/
def getUserVisits (userIdArg currentUser : Option String)
    (net : UserQuery → Except String (Option (List Visit))) :
    Except String (List Visit) × Nat :=
  let user : Option String :=
    match (match userIdArg with
           | some s => if s = "" then currentUser else some s
           | none => currentUser) with
    | some s => if s = "" then none else some s
    | none => none
  match user with
  | none => (Except.ok [], 0)
  | some u => ((net { table := "visits", user_id := u }).map (fun d => d.getD []), 1)

/-- Method `getUserRatings(userId?)`: same user resolution and empty-list fallback,
querying `ratings`. -/
def getUserRatings (userIdArg currentUser : Option String)
    (net : UserQuery → Except String (Option (List RatingRow))) :
    Except String (List RatingRow) × Nat :=
  let user : Option String :=
    match (match userIdArg with
           | some s => if s = "" then currentUser else some s
           | none => currentUser) with
    | some s => if s = "" then none else some s
    | none => none
  match user with
  | none => (Except.ok [], 0)
  | some u => ((net { table := "ratings", user_id := u }).map (fun d => d.getD []), 1)

/-- Method `getUserPendingRatings(userId?)`: same user resolution and empty-list
fallback; one request against `visits` (the not-rated subquery is embedded
in it); the rows' joined `event` values are mapped out and the falsy ones
dropped (`.map(v => v.event).filter(Boolean)`). -/
def getUserPendingRatings (userIdArg currentUser : Option String)
    (net : UserQuery → Except String (Option (List (Option EventRow)))) :
    Except String (List EventRow) × Nat :=
  let user : Option String :=
    match (match userIdArg with
           | some s => if s = "" then currentUser else some s
           | none => currentUser) with
    | some s => if s = "" then none else some s
    | none => none
  match user with
  | none => (Except.ok [], 0)
  | some u =>
      ((net { table := "visits", user_id := u }).map
        (fun d => (d.getD []).filterMap id), 1)

end SupabaseService

/-- JavaScript `Math.round`: the integer nearest to `x`, half-way cases
rounding toward positive infinity (`Math.round(x) = floor(x + 0.5)`). -/
def jsRound (x : ℚ) : ℤ := ⌊x + 1 / 2⌋

namespace ApiService

/-- Fuel-bounded worker for the regex replacement `<[^>]*>` → `''`: a `<`
followed by non-`>` characters and a closing `>` is removed; a `<` with no
closing `>` in the remainder matches nothing and is kept.  The fuel is at
least the character count, so it never runs out. -/
def stripTagsAux : Nat → List Char → List Char
  | 0, cs => cs
  | _ + 1, [] => []
  | fuel + 1, c :: cs =>
      if c = '<' then
        match cs.dropWhile (fun d => !(d = '>')) with
        | _ :: rest => stripTagsAux fuel rest
        | [] => c :: cs
      else
        c :: stripTagsAux fuel cs

/-- The regex replacement `str.replace(/<[^>]*>/g, '')` on an already-trimmed string. -/
def stripTags (s : String) : String :=
  String.mk (stripTagsAux (s.length + 1) s.data)

/-- Helper `sanitizeString` of the ApiService: falsy input gives `''`, otherwise
trim then strip HTML tags. -/
def sanitizeString (str : Option String) : String :=
  match str with
  | none => ""
  | some s => if s = "" then "" else stripTags s.trim

/-- Helper `validateScore` of the ApiService: `Math.round` the score, then clamp it
into `[1, 5]` with `Math.max(1, Math.min(5, validScore))`. -/
def validateScore (score : ℚ) : ℚ :=
  ((max 1 (min 5 (jsRound score)) : ℤ) : ℚ)

/-- The JSON body `ApiService.createRating` POSTs to `/ratings`. -/
structure RatingBody where
  event_id : String
  user_id : String
  score : ℚ
  review : Option String
  was_present : Bool
deriving DecidableEq

/-- Method `ApiService.createRating(eventId, score, review?, wasPresent)`: always
attributes the rating to the service's (possibly anonymous, localStorage-
backed) `userId`; the score is validated and the review sanitized before
the request body is built (`sanitizedReview || null`). -/
def createRating (clientUserId : String) (eventId : String) (score : ℚ)
    (review : Option String) (wasPresent : Bool) : RatingBody :=
  let validatedScore := validateScore score
  let sanitizedReview := sanitizeString review
  { event_id := eventId
    user_id := clientUserId
    score := validatedScore
    review := if sanitizedReview = "" then none else some sanitizedReview
    was_present := wasPresent }

end ApiService

/-- Idealized JavaScript `parseFloat(x.toFixed(digits))` on an exact
rational: round to `digits` decimal places; ECMA-262 resolves half-way cases
by picking the larger candidate, which is exactly `jsRound` scaled. -/
def toFixedQ (digits : Nat) (x : ℚ) : ℚ :=
  ((jsRound (x * (10 : ℚ) ^ digits) : ℤ) : ℚ) / (10 : ℚ) ^ digits

namespace Analytics

/-- The record the analytics page stores in its `overallStats` signal. -/
structure OverallStats where
  totalEvents : Nat
  totalVisitors : Nat
  totalRatings : Nat
  avgRating : ℚ
  dropOffRate : ℚ
  engagementRate : ℚ
deriving DecidableEq

/-- Method `calculateOverallStats(events)` of analytics.ts, translated `reduce` by
`reduce`; the `avg_rating`, `engagementRate` and `dropOffRate` values go
through `parseFloat((...).toFixed(k))` before being stored. -/
def calculateOverallStats (events : List EventRow) : OverallStats :=
  let totalEvents := events.length
  let totalVisitors := events.foldl (fun sum e => sum + e.visitor_count.getD 0) (0 : Nat)
  let totalRatings := events.foldl (fun sum e => sum + e.review_count.getD 0) (0 : Nat)
  let avgRating : ℚ :=
    if 0 < events.length then
      (events.foldl (fun sum e => sum + e.avg_rating.getD 0) (0 : ℚ)) / (events.length : ℚ)
    else 0
  let totalViews := events.foldl (fun sum e => sum + e.view_count.getD 0) (0 : Nat)
  let engagementRate : ℚ :=
    if 0 < totalViews then ((totalRatings : ℚ) / (totalViews : ℚ)) * 100 else 0
  let dropOffRate : ℚ := 100 - engagementRate
  { totalEvents := totalEvents
    totalVisitors := totalVisitors
    totalRatings := totalRatings
    avgRating := toFixedQ 2 avgRating
    dropOffRate := toFixedQ 1 dropOffRate
    engagementRate := toFixedQ 1 engagementRate }

end Analytics

/-- A concrete browser context used by the witnesses. -/
def ctxW : TrackCtx :=
  { userId := "anon_1", pageUrl := "http://localhost/", pageTitle := "Home",
    routerUrl := "/", now := "2024-01-01T00:00:00.000Z",
    sessionId := "session_1", viewportW := 1280, viewportH := 720,
    scrollY := 0 }

/-- A concrete queued event used by the witnesses. -/
def sampleEvent : UserEvent := UserTrackingService.mkFullEvent ctxW {}

/-- Concrete events for the C7 counterexample: average ratings 1, 1 and 2,
whose mean 4/3 is not representable in two decimal places. -/
def evA : EventRow :=
  { id := "e1", title := "A", category_id := "c1", city_id := "y1",
    event_date := "2024-05-03", event_time := "10:00", color := "#FF6B5B",
    avg_rating := some 1 }

/-- Second counterexample event. -/
def evB : EventRow :=
  { id := "e2", title := "B", category_id := "c1", city_id := "y1",
    event_date := "2024-05-04", event_time := "11:00", color := "#FFD93D",
    avg_rating := some 1 }

/-- Third counterexample event. -/
def evC : EventRow :=
  { id := "e3", title := "C", category_id := "c2", city_id := "y2",
    event_date := "2024-06-07", event_time := "12:00", color := "#9B7EDE",
    avg_rating := some 2 }

/-- Generic bridge from the `reduce`-style folds of the source to list
sums. -/
theorem foldl_add_eq_sum {M : Type} [AddCommMonoid M] {α : Type}
    (g : α → M) (l : List α) (init : M) :
    l.foldl (fun sum e => sum + g e) init = init + (l.map g).sum := by
  induction l generalizing init with
  | nil => simp
  | cons a t ih => simp [ih, add_assoc]


/-- C1.  Every `trackEvent` call appends exactly one fully-populated event
at the end of the queue, missing fields getting the documented defaults, and
the (non-forced) flush fires exactly when the queue length after the append
has reached `batchSize = 50`. -/
theorem c1_trackEvent_appends_one_event_and_flushes_at_threshold
    (ctx : TrackCtx) (ev : EventDraft) (saveOk : Bool) (st : TrackState) :
    UserTrackingService.batchSize = 50
    ∧ (UserTrackingService.trackEvent ctx ev saveOk st).2
        = decide (UserTrackingService.batchSize ≤ st.eventQueue.length + 1)
    ∧ (st.eventQueue.length + 1 < UserTrackingService.batchSize →
        (UserTrackingService.trackEvent ctx ev saveOk st).1
          = { st with eventQueue :=
                st.eventQueue ++ [UserTrackingService.mkFullEvent ctx ev] })
    ∧ ((UserTrackingService.trackEvent ctx ev false st).1.eventQueue
        = st.eventQueue ++ [UserTrackingService.mkFullEvent ctx ev])
    ∧ (ev.event_type = none →
        (UserTrackingService.mkFullEvent ctx ev).event_type = "unknown")
    ∧ (ev.event_category = none →
        (UserTrackingService.mkFullEvent ctx ev).event_category = "interaction")
    ∧ (ev.page_url = none →
        (UserTrackingService.mkFullEvent ctx ev).page_url = ctx.pageUrl)
    ∧ (ev.page_title = none →
        (UserTrackingService.mkFullEvent ctx ev).page_title = some ctx.pageTitle)
    ∧ (UserTrackingService.mkFullEvent ctx ev).timestamp = ctx.now
    ∧ (UserTrackingService.mkFullEvent ctx ev).session_id = ctx.sessionId
    ∧ (UserTrackingService.mkFullEvent ctx ev).user_id = ctx.userId := by
  refine ⟨rfl, ?_, ?_, ?_, ?_, ?_, ?_, ?_, rfl, rfl, rfl⟩
  · by_cases h : UserTrackingService.batchSize ≤ st.eventQueue.length + 1
    · simp [UserTrackingService.trackEvent, List.length_append, h]
    · simp [UserTrackingService.trackEvent, List.length_append, h]
  · intro h
    have h' : ¬ UserTrackingService.batchSize ≤ st.eventQueue.length + 1 :=
      Nat.not_le.mpr h
    simp [UserTrackingService.trackEvent, List.length_append, h']
  · by_cases h : UserTrackingService.batchSize ≤ st.eventQueue.length + 1
    · have hne : st.eventQueue ++ [UserTrackingService.mkFullEvent ctx ev] ≠ [] := by
        simp
      simp [UserTrackingService.trackEvent, UserTrackingService.flushEvents,
        List.length_append, h, hne, List.take_append_drop]
    · simp [UserTrackingService.trackEvent, List.length_append, h]
  · intro h; simp [UserTrackingService.mkFullEvent, h, jsOrStr]
  · intro h; simp [UserTrackingService.mkFullEvent, h, jsOrStr]
  · intro h; simp [UserTrackingService.mkFullEvent, h, jsOrStr]
  · intro h; simp [UserTrackingService.mkFullEvent, h, jsOrStr]

/-- Witness for C1 at a concrete context and an empty queue. -/
theorem c1_witness :
    (UserTrackingService.trackEvent ctxW ({} : EventDraft) true ⟨[], []⟩).1
      = { eventQueue := [] ++ [UserTrackingService.mkFullEvent ctxW ({} : EventDraft)],
          saved := ([] : List UserEvent) } :=
  (c1_trackEvent_appends_one_event_and_flushes_at_threshold
      ctxW ({} : EventDraft) true ⟨[], []⟩).2.2.1 (by decide)

/-- C2.  A failed non-forced flush on a non-empty queue puts the removed
batch back at the front, so the whole state equals its pre-flush value and
no tracked event is lost. -/
theorem c2_failed_flush_restores_queue (st : TrackState)
    (h : st.eventQueue ≠ []) :
    (UserTrackingService.flushEvents false false st).1 = st
    ∧ (UserTrackingService.flushEvents false false st).2
        = some (st.eventQueue.take UserTrackingService.batchSize) := by
  cases st with
  | mk q saved =>
    refine ⟨?_, ?_⟩ <;>
      simp [UserTrackingService.flushEvents, h, List.take_append_drop]

/-- Witness for C2 on a one-event queue. -/
theorem c2_witness :
    (UserTrackingService.flushEvents false false ⟨[sampleEvent], []⟩).1
      = ⟨[sampleEvent], []⟩ :=
  (c2_failed_flush_restores_queue ⟨[sampleEvent], []⟩
      (List.cons_ne_nil _ _)).1

/-- C3.  A forced flush submits the whole queue as one batch; a non-forced
flush removes and submits the first `min (batchSize) (queue length)` events;
an empty queue produces no network call in either mode. -/
theorem c3_forced_whole_queue_nonforced_first_batch
    (st : TrackState) (saveOk : Bool) :
    ((UserTrackingService.flushEvents true saveOk st).2
        = if st.eventQueue = [] then none else some st.eventQueue)
    ∧ ((UserTrackingService.flushEvents false saveOk st).2
        = if st.eventQueue = [] then none
          else some (st.eventQueue.take UserTrackingService.batchSize))
    ∧ (st.eventQueue.take UserTrackingService.batchSize).length
        = min UserTrackingService.batchSize st.eventQueue.length
    ∧ (UserTrackingService.flushEvents false true st).1.eventQueue
        = st.eventQueue.drop UserTrackingService.batchSize := by
  refine ⟨?_, ?_, List.length_take _ _, ?_⟩ <;>
    by_cases h : st.eventQueue = [] <;>
      cases saveOk <;> simp [UserTrackingService.flushEvents, h]

/-- C4.  A forced flush never removes events: the queue is unchanged whether
the save succeeds or fails, and a following non-forced flush submits the
first `batchSize` of those very events again (duplicate delivery). -/
theorem c4_forced_flush_leaves_queue_unchanged
    (st : TrackState) (r r2 : Bool) :
    ((UserTrackingService.flushEvents true r st).1.eventQueue = st.eventQueue)
    ∧ ((UserTrackingService.flushEvents false r2
          ((UserTrackingService.flushEvents true r st).1)).2
        = if st.eventQueue = [] then none
          else some (st.eventQueue.take UserTrackingService.batchSize))
    ∧ List.Sublist (st.eventQueue.take UserTrackingService.batchSize)
        st.eventQueue := by
  have h1 : (UserTrackingService.flushEvents true r st).1.eventQueue
      = st.eventQueue := by
    by_cases h : st.eventQueue = [] <;>
      cases r <;> simp [UserTrackingService.flushEvents, h]
  have hsent : ∀ (ok : Bool) (st' : TrackState),
      (UserTrackingService.flushEvents false ok st').2
        = if st'.eventQueue = [] then none
          else some (st'.eventQueue.take UserTrackingService.batchSize) := by
    intro ok st'
    by_cases h : st'.eventQueue = [] <;>
      cases ok <;> simp [UserTrackingService.flushEvents, h]
  refine ⟨h1, ?_, List.take_sublist _ _⟩
  rw [hsent, h1]

/-- C8.  `migrateAnonymousEvents` rewrites exactly the queued events whose
`user_id` equals the old anonymous id (touching no other field and no other
event), appends one `events_migrated` system event, and does not touch the
events already saved to the backend. -/
theorem c8_migration_rewrites_queue_and_appends_system_event
    (ctx : TrackCtx) (oldId newId : String) (saveOk : Bool) (st : TrackState)
    (h : st.eventQueue.length + 1 < UserTrackingService.batchSize) :
    ((UserTrackingService.migrateAnonymousEvents ctx oldId newId saveOk st).1.saved
        = st.saved)
    ∧ ((UserTrackingService.migrateAnonymousEvents ctx oldId newId saveOk st).1.eventQueue
        = st.eventQueue.map (UserTrackingService.rewriteUser oldId newId)
          ++ [UserTrackingService.mkFullEvent ctx
                (UserTrackingService.migrationDraft oldId newId st.eventQueue.length)])
    ∧ (∀ e : UserEvent, (UserTrackingService.rewriteUser oldId newId e).user_id
        = if e.user_id = oldId then newId else e.user_id)
    ∧ (∀ e : UserEvent,
        { UserTrackingService.rewriteUser oldId newId e with user_id := e.user_id } = e)
    ∧ (UserTrackingService.mkFullEvent ctx
        (UserTrackingService.migrationDraft oldId newId st.eventQueue.length)).event_type
        = "events_migrated"
    ∧ (UserTrackingService.mkFullEvent ctx
        (UserTrackingService.migrationDraft oldId newId st.eventQueue.length)).event_category
        = "system" := by
  have hlen : (st.eventQueue.map (UserTrackingService.rewriteUser oldId newId)).length
      = st.eventQueue.length := List.length_map _ _
  have h' : ¬ UserTrackingService.batchSize ≤ st.eventQueue.length + 1 :=
    Nat.not_le.mpr h
  refine ⟨?_, ?_, ?_, ?_, ?_, ?_⟩
  · simp [UserTrackingService.migrateAnonymousEvents, UserTrackingService.trackEvent,
      List.length_append, hlen, h']
  · simp [UserTrackingService.migrateAnonymousEvents, UserTrackingService.trackEvent,
      List.length_append, hlen, h']
  · intro e
    by_cases he : e.user_id = oldId <;> simp [UserTrackingService.rewriteUser, he]
  · intro e
    cases e
    simp only [UserTrackingService.rewriteUser]
    split <;> rfl
  · simp [UserTrackingService.mkFullEvent, UserTrackingService.migrationDraft, jsOrStr]
  · simp [UserTrackingService.mkFullEvent, UserTrackingService.migrationDraft, jsOrStr]

/-- Witness for C8 on a one-event queue carrying the old anonymous id. -/
theorem c8_witness :
    (UserTrackingService.migrateAnonymousEvents ctxW "anon_1" "user_9" true
        ⟨[sampleEvent], []⟩).1.saved = ([] : List UserEvent) :=
  (c8_migration_rewrites_queue_and_appends_system_event ctxW "anon_1" "user_9"
      true ⟨[sampleEvent], []⟩ (by decide)).1

/-- Splitting `countKey` over an append. -/
theorem countKey_append (a b : List DbRow) (e u : String) :
    countKey (a ++ b) e u = countKey a e u + countKey b e u := by
  simp [countKey, List.filter_append]

/-- On a table with no row at the key, the replacement map of `applyUpsert`
is the identity. -/
theorem map_keep_of_countKey_zero (tbl : List DbRow) (e u : String)
    (nr : DbRow) (h : countKey tbl e u = 0) :
    tbl.map (fun r => if r.event_id = e ∧ r.user_id = u then nr else r)
      = tbl := by
  induction tbl with
  | nil => rfl
  | cons a t ih =>
    by_cases hp : a.event_id = e ∧ a.user_id = u
    · exfalso
      have : countKey (a :: t) e u = countKey t e u + 1 := by
        simp [countKey, List.filter_cons, hp]
      omega
    · have h' : countKey t e u = 0 := by
        simpa [countKey, List.filter_cons, hp] using h
      simp [hp, ih h']

/-- On a table with no row at the key, the `any` probe of `applyUpsert`
fails. -/
theorem any_key_false_of_countKey_zero (tbl : List DbRow) (e u : String)
    (h : countKey tbl e u = 0) :
    tbl.any (fun r => decide (r.event_id = e ∧ r.user_id = u)) = false := by
  induction tbl with
  | nil => rfl
  | cons a t ih =>
    by_cases hp : a.event_id = e ∧ a.user_id = u
    · exfalso
      have : countKey (a :: t) e u = countKey t e u + 1 := by
        simp [countKey, List.filter_cons, hp]
      omega
    · have h' : countKey t e u = 0 := by
        simpa [countKey, List.filter_cons, hp] using h
      rw [List.any_cons, ih h']
      simp [hp]

/-- C6.  `trackEventView`, `checkIn` and `createRating` each upsert with the
conflict key `(event_id, user_id)`, and under the remote upsert semantics a
second submission for the same pair replaces the row instead of duplicating
it. -/
theorem c6_writes_upsert_on_event_and_user (u e : String) (s : ℚ)
    (rev : Option String) (wp : Bool) (tbl : List DbRow)
    (p1 p2 : RowPayload) (h0 : countKey tbl e u = 0) :
    ((SupabaseService.trackEventView (some u) e).map
        (fun q => (q.table, q.onConflict, q.row_event_id, q.row_user_id))
      = some ("event_views", "event_id,user_id", e, u))
    ∧ ((SupabaseService.checkIn (some u) e).map
        (fun q => (q.table, q.onConflict, q.row_event_id, q.row_user_id))
      = Except.ok ("visits", "event_id,user_id", e, u))
    ∧ ((SupabaseService.createRating (some u) e s rev wp).map
        (fun q => (q.table, q.onConflict, q.row_event_id, q.row_user_id))
      = Except.ok ("ratings", "event_id,user_id", e, u))
    ∧ (applyUpsert (applyUpsert tbl ⟨"t", e, u, p1, "event_id,user_id"⟩)
          ⟨"t", e, u, p2, "event_id,user_id"⟩
        = tbl ++ [⟨e, u, p2⟩])
    ∧ (countKey (applyUpsert (applyUpsert tbl ⟨"t", e, u, p1, "event_id,user_id"⟩)
          ⟨"t", e, u, p2, "event_id,user_id"⟩) e u = 1)
    ∧ ((applyUpsert (applyUpsert tbl ⟨"t", e, u, p1, "event_id,user_id"⟩)
          ⟨"t", e, u, p2, "event_id,user_id"⟩).length
        = (applyUpsert tbl ⟨"t", e, u, p1, "event_id,user_id"⟩).length) := by
  have hany : tbl.any (fun r => decide (r.event_id = e ∧ r.user_id = u)) = false :=
    any_key_false_of_countKey_zero tbl e u h0
  have hfirst : applyUpsert tbl ⟨"t", e, u, p1, "event_id,user_id"⟩
      = tbl ++ [⟨e, u, p1⟩] := by
    simp only [applyUpsert, hany, Bool.false_eq_true, if_false]
  have hsecond : applyUpsert (tbl ++ [(⟨e, u, p1⟩ : DbRow)])
      ⟨"t", e, u, p2, "event_id,user_id"⟩ = tbl ++ [⟨e, u, p2⟩] := by
    have hany2 : (tbl ++ [(⟨e, u, p1⟩ : DbRow)]).any
        (fun r => decide (r.event_id = e ∧ r.user_id = u)) = true := by
      rw [List.any_append]
      simp
    simp only [applyUpsert, hany2, if_true, List.map_append,
      map_keep_of_countKey_zero tbl e u _ h0]
    simp
  have hcount : countKey (tbl ++ [(⟨e, u, p2⟩ : DbRow)]) e u = 1 := by
    rw [countKey_append, h0]
    simp [countKey, List.filter_cons]
  refine ⟨rfl, rfl, rfl, ?_, ?_, ?_⟩
  · rw [hfirst, hsecond]
  · rw [hfirst, hsecond, hcount]
  · rw [hfirst, hsecond]
    simp

/-- Witness for C6 on the empty table. -/
theorem c6_witness :
    countKey (applyUpsert (applyUpsert []
        ⟨"t", "event_1", "user_1", RowPayload.visit, "event_id,user_id"⟩)
        ⟨"t", "event_1", "user_1", RowPayload.visit, "event_id,user_id"⟩)
      "event_1" "user_1" = 1 :=
  (c6_writes_upsert_on_event_and_user "user_1" "event_1" 5 none true []
      RowPayload.visit RowPayload.visit (by decide)).2.2.2.2.1

/-- C5 counterexample: the ApiService rating-creation path does not pass the
score unchanged — a score of 7 is clamped before being sent. -/
theorem c5_counterexample :
    (ApiService.createRating "user_1" "event_1" 7 none true).score ≠ 7 := by
  show ((max 1 (min 5 (jsRound 7)) : ℤ) : ℚ) ≠ 7
  have hj : jsRound (7 : ℚ) = 7 := by
    unfold jsRound
    norm_num [Int.floor_eq_iff]
  rw [hj]
  norm_num

/-- C5 (amended).  `SupabaseService.createRating` passes the score to the
backend exactly as given (no client-side validation on that path), while
`ApiService.createRating` sends `validateScore(score)`: always inside
`[1, 5]`, and equal to the input exactly when it already is an integral
score in that range. -/
theorem c5_amended_score_validation (u e : String) (s : ℚ)
    (rev : Option String) (wp : Bool) :
    ((SupabaseService.createRating (some u) e s rev wp).map
        (fun q => q.payload.scoreVal) = Except.ok (some s))
    ∧ 1 ≤ (ApiService.createRating u e s rev wp).score
    ∧ (ApiService.createRating u e s rev wp).score ≤ 5
    ∧ ∀ n : ℤ, 1 ≤ n → n ≤ 5 →
        (ApiService.createRating u e (n : ℚ) rev wp).score = (n : ℚ) := by
  refine ⟨rfl, ?_, ?_, ?_⟩
  · show (1 : ℚ) ≤ ((max 1 (min 5 (jsRound s)) : ℤ) : ℚ)
    exact_mod_cast le_max_left 1 (min 5 (jsRound s))
  · show ((max 1 (min 5 (jsRound s)) : ℤ) : ℚ) ≤ 5
    exact_mod_cast max_le (by norm_num) (min_le_left 5 (jsRound s))
  · intro n h1 h5
    show ((max 1 (min 5 (jsRound (n : ℚ))) : ℤ) : ℚ) = (n : ℚ)
    have hr : jsRound ((n : ℤ) : ℚ) = n := by
      unfold jsRound
      rw [add_comm, Int.floor_add_int]
      norm_num
    rw [hr, min_eq_right h5, max_eq_right h1]

/-- Witness for C5 at the integral in-range score 3. -/
theorem c5_witness :
    (ApiService.createRating "user_1" "event_1" (((3 : ℤ)) : ℚ) none true).score
      = (((3 : ℤ)) : ℚ) :=
  (c5_amended_score_validation "user_1" "event_1" 3 none true).2.2.2 3
    (by decide) (by decide)

/-- C9 counterexample: with no authenticated user, the Supabase
rating-creation path throws instead of succeeding with an anonymous UID. -/
theorem c9_counterexample :
    SupabaseService.createRating none "event_1" 5 none true
      = Except.error "User must be authenticated" := rfl

/-- C9 (amended).  The ApiService path attributes the rating to the
client-generated (possibly anonymous) UID and builds the request for any
caller, while the Supabase path records the authenticated user's id and
fails with `'User must be authenticated'` when nobody is signed in. -/
theorem c9_amended_rating_attribution (uid e : String) (s : ℚ)
    (rev : Option String) (wp : Bool) (u : String) :
    ((ApiService.createRating uid e s rev wp).user_id = uid)
    ∧ ((SupabaseService.createRating (some u) e s rev wp).map
        (fun q => q.row_user_id) = Except.ok u)
    ∧ (SupabaseService.createRating none e s rev wp
        = Except.error "User must be authenticated") :=
  ⟨rfl, rfl, rfl⟩

/-- C10.  With no signed-in user and no userId argument, the three user
read helpers return the empty list with zero network calls and no error. -/
theorem c10_no_user_silent_empty_fallback
    (netV : SupabaseService.UserQuery → Except String (Option (List Visit)))
    (netR : SupabaseService.UserQuery → Except String (Option (List RatingRow)))
    (netP : SupabaseService.UserQuery → Except String (Option (List (Option EventRow)))) :
    SupabaseService.getUserVisits none none netV = (Except.ok [], 0)
    ∧ SupabaseService.getUserRatings none none netR = (Except.ok [], 0)
    ∧ SupabaseService.getUserPendingRatings none none netP = (Except.ok [], 0) :=
  ⟨rfl, rfl, rfl⟩


/-- C7 counterexample: the stored `avgRating` is the mean rounded to two
decimal places (1.33 here), not the arithmetic mean (4/3) the claim
states. -/
theorem c7_counterexample :
    (Analytics.calculateOverallStats [evA, evB, evC]).avgRating
      ≠ ((evA.avg_rating.getD 0) + (evB.avg_rating.getD 0)
          + (evC.avg_rating.getD 0)) / 3 := by
  show Analytics.OverallStats.avgRating _ ≠ _
  have hmean : ((evA.avg_rating.getD 0) + (evB.avg_rating.getD 0)
      + (evC.avg_rating.getD 0) : ℚ) / 3 = 4 / 3 := by
    norm_num [evA, evB, evC]
  have hstored : (Analytics.calculateOverallStats [evA, evB, evC]).avgRating
      = 133 / 100 := by
    show toFixedQ 2 _ = 133 / 100
    unfold toFixedQ jsRound
    norm_num [Analytics.calculateOverallStats, evA, evB, evC,
      Int.floor_eq_iff]
  rw [hstored, hmean]
  norm_num

/-- C7 (amended).  `calculateOverallStats` computes the claimed sums, mean
and rates, but stores `avgRating` rounded to two decimal places and
`engagementRate` / `dropOffRate` rounded to one decimal place;
`dropOffRate` is 100 minus the un-rounded engagement rate, then rounded. -/
theorem c7_amended_overall_stats (events : List EventRow) :
    (Analytics.calculateOverallStats events).totalEvents = events.length
    ∧ (Analytics.calculateOverallStats events).totalVisitors
        = (events.map (fun ev => ev.visitor_count.getD 0)).sum
    ∧ (Analytics.calculateOverallStats events).totalRatings
        = (events.map (fun ev => ev.review_count.getD 0)).sum
    ∧ (Analytics.calculateOverallStats events).avgRating
        = toFixedQ 2 (if events.length = 0 then 0
            else (events.map (fun ev => ev.avg_rating.getD 0)).sum
              / (events.length : ℚ))
    ∧ (Analytics.calculateOverallStats events).engagementRate
        = toFixedQ 1 (if 0 < (events.map (fun ev => ev.view_count.getD 0)).sum
            then (((events.map (fun ev => ev.review_count.getD 0)).sum : ℚ)
                / ((events.map (fun ev => ev.view_count.getD 0)).sum : ℚ)) * 100
            else 0)
    ∧ (Analytics.calculateOverallStats events).dropOffRate
        = toFixedQ 1 (100 -
            (if 0 < (events.map (fun ev => ev.view_count.getD 0)).sum
             then (((events.map (fun ev => ev.review_count.getD 0)).sum : ℚ)
                 / ((events.map (fun ev => ev.view_count.getD 0)).sum : ℚ)) * 100
             else 0)) := by
  have hv : events.foldl (fun sum e => sum + e.visitor_count.getD 0) (0 : Nat)
      = (events.map (fun ev => ev.visitor_count.getD 0)).sum := by
    rw [foldl_add_eq_sum]; exact Nat.zero_add _
  have hr : events.foldl (fun sum e => sum + e.review_count.getD 0) (0 : Nat)
      = (events.map (fun ev => ev.review_count.getD 0)).sum := by
    rw [foldl_add_eq_sum]; exact Nat.zero_add _
  have hw : events.foldl (fun sum e => sum + e.view_count.getD 0) (0 : Nat)
      = (events.map (fun ev => ev.view_count.getD 0)).sum := by
    rw [foldl_add_eq_sum]; exact Nat.zero_add _
  have hq : events.foldl (fun sum e => sum + e.avg_rating.getD 0) (0 : ℚ)
      = (events.map (fun ev => ev.avg_rating.getD 0)).sum := by
    rw [foldl_add_eq_sum]; exact zero_add _
  have hcast : ∀ g : EventRow → ℕ,
      (((events.map g).sum : ℕ) : ℚ)
        = (events.map (fun ev => ((g ev : ℕ) : ℚ))).sum := by
    intro g
    rw [Nat.cast_list_sum, List.map_map]
    rfl
  refine ⟨rfl, ?_, ?_, ?_, ?_, ?_⟩
  · show events.foldl _ _ = _
    exact hv
  · show events.foldl _ _ = _
    exact hr
  · show toFixedQ 2 _ = toFixedQ 2 _
    congr 1
    rw [hq]
    by_cases h : events.length = 0
    · simp [h]
    · simp [h, Nat.pos_of_ne_zero h]
  · show toFixedQ 1 _ = toFixedQ 1 _
    congr 1
    rw [hr, hw]
    simp only [hcast]
  · show toFixedQ 1 _ = toFixedQ 1 _
    congr 1
    rw [hr, hw]
    simp only [hcast]
